import Mathlib

/-!
Verification development for the fabric8-services jenkins-controller
(fabric8-jenkins-idler) repository.

The embedding is shallow: Go strings (byte strings of the source) are
modelled as lists of characters, Go `int`/`int64` as `Int`, timestamps as
`Int`, maps as functions into `Option`, and fallible Go functions as
`Except`-returning Lean functions.  External collaborators (tenant
directory, platform client, cluster view) are passed in as function-valued
parameters, mirroring the interfaces the source programs against.

Source files embedded:
  * `internal/openshift/controller.go` — the supervisor
    (`HandleBuild`, `HandleDeploymentConfig`, `createIfNotExist`, …);
  * the API handlers file (package `api`) — `UnIdle`, `IsIdle`,
    `SetUserIdlerStatus`, `getURLAndToken`, `isJenkinsUnIdled`, ….

Parts of the repository that are referenced but whose sources are not
available (the `internal/model` package and `internal/idler`'s service
list) are modelled from the specification; each such definition carries a
doc comment that starts with `Modelled from the spec:`.
-/

set_option maxRecDepth 4000

namespace JenkinsIdler

/-- Go byte strings are modelled as lists of characters. -/
abbrev GoStr := List Char

deriving instance DecidableEq for Except

/-- Convenience conversion from Lean string literals to `GoStr`. -/
def str (s : String) : GoStr := s.toList

/-- Error values produced by the embedded functions.  Each constructor
corresponds to one error-producing site of the source (or of an external
collaborator). -/
inductive Err
  /-- The tenant-directory call itself failed. -/
  | tenantCallFailed
  /-- `createIfNotExist`: "Tenant service returned multiple items". -/
  | multipleTenants (count : Int)
  /-- `createIfNotExist`: "could not find tenant in cluster … for namespace …". -/
  | noTenant
  /-- `model.DCStatus.GetByType`: required condition missing. -/
  | missingCondition
  /-- `strconv.ParseBool`: status not parseable as boolean. -/
  | parseBoolFailed
  /-- `getURLAndToken`: "OpenShift API URL needs to be specified". -/
  | missingAPIURL
  /-- `getURLAndToken`: "Unknown or invalid OpenShift API URL". -/
  | unknownAPIURL
  /-- A platform-client (OpenShift client) call failed. -/
  | platformErr
  deriving DecidableEq, Repr

/-- Build status — `model.Build.Status` carries the phase string. -/
structure Status where
  phase : GoStr
  deriving DecidableEq, Repr

/-- Build metadata: name (space + build number) and namespace.
(`namespace` is a Lean keyword; the field is called `nspace`.) -/
structure ObjectMeta where
  name : GoStr
  nspace : GoStr
  deriving DecidableEq, Repr

/-- `model.Build` — metadata plus status.  `model.Object` merely wraps a
`Build` in an `Object` field; the wrapper is elided. -/
structure Build where
  metadata : ObjectMeta
  status : Status
  deriving DecidableEq, Repr

/-- The Go zero value of `model.Build` (all strings empty). -/
def Build.zero : Build := ⟨⟨[], []⟩, ⟨[]⟩⟩

/-- The sentinel written by `HandleBuild`'s cleanup step:
`model.Build{Status: model.Status{Phase: "New"}}` — zero metadata. -/
def Build.newSentinel : Build := ⟨⟨[], []⟩, ⟨str "New"⟩⟩

/-- Modelled from the spec: `model.Phases` (package `internal/model`, not
among the available sources).  The classification function
`activity(phase) ∈ {active, done, other}`: active phases (glossary:
in-progress, e.g. Running, Pending) carry code 1 — the code `isActive`
tests for; terminal phases (Complete, Failed, Cancelled) carry code 0;
the initial `New` phase is its own class, neither active nor done, so its
code is distinct from both.  A phase absent from the map yields Go's zero
default 0. -/
def Phases (p : GoStr) : Int :=
  if p = str "Running" ∨ p = str "Pending" then 1
  else if p = str "Complete" ∨ p = str "Failed" ∨ p = str "Cancelled" then 0
  else if p = str "New" then -1
  else 0

/-- The three activity classes of the spec. -/
inductive Activity
  | active
  | done
  | other
  deriving DecidableEq, Repr

/-- The spec's classification function `activity(phase)`, expressed over
the `Phases` codes. -/
def activityOf (p : GoStr) : Activity :=
  if Phases p = 1 then .active
  else if Phases p = 0 then .done
  else .other

/-- `controllerImpl.isActive`: `model.Phases[b.Status.Phase] == 1`. -/
def isActive (b : Build) : Bool := Phases b.status.phase == 1

/-- `model.User` — per-namespace record.  Modelled from the spec:
"Fields: tenant id (opaque string), namespace (string), ActiveBuild
(Build), DoneBuild (Build), JenkinsLastUpdate (timestamp, UTC)". -/
structure User where
  id : GoStr
  name : GoStr
  activeBuild : Build
  doneBuild : Build
  jenkinsLastUpdate : Int
  deriving DecidableEq, Repr

/-- The Go zero value of `model.User` (returned by `userForNamespace`
when the map has no entry). -/
def User.zero : User := ⟨[], [], Build.zero, Build.zero, 0⟩

/-- Modelled from the spec: `model.NewUser(id, ns)` — "Allocate a new
User with the returned tenant id"; builds and timestamp start at their
zero values. -/
def newUser (id ns : GoStr) : User :=
  { id := id, name := ns, activeBuild := Build.zero, doneBuild := Build.zero,
    jenkinsLastUpdate := 0 }

/-- The supervisor's mutable registries: the user map and the per-idler
channel map (`UserMap` / `UserChannelMap`).  A channel is modelled by its
presence flag; `sendUserToIdler` only needs to know whether the channel
for the namespace exists. -/
@[ext]
structure CtrlState where
  users : GoStr → Option User
  channels : GoStr → Bool

/-- `oc.users.Store(ns, user)`. -/
def storeUser (s : CtrlState) (ns : GoStr) (u : User) : CtrlState :=
  { s with users := fun k => if k = ns then some u else s.users k }

/-- `oc.userForNamespace`: `user, _ := oc.users.Load(ns); return user` —
the Go zero value on absence. -/
def userForNamespace (s : CtrlState) (ns : GoStr) : User :=
  (s.users ns).getD User.zero

/-- `sendUserToIdler`, observed as the list of user snapshots offered to
the namespace's channel: the singleton `[user]` when the channel exists,
`[]` when no channel is found (the source only logs then).  The 1 s
channel-send timeout and its drop are real-time behaviour outside the
shallow embedding; a "notify" here is the delivery attempt. -/
def notifyList (s : CtrlState) (ns : GoStr) (u : User) : List User :=
  if s.channels ns then [u] else []

/-- Tenant-directory response shape:
`{Meta:{TotalCount}, Data:[{ID,…}], Errors}`. -/
structure TenantMeta where
  totalCount : Int
  deriving DecidableEq, Repr

/-- One tenant entry of the directory response (`ti.Data[i]`). -/
structure TenantData where
  id : GoStr
  deriving DecidableEq, Repr

/-- `tenant.InfoList` — the tenant-directory response. -/
structure TenantInfo where
  meta : TenantMeta
  data : List TenantData
  deriving DecidableEq, Repr

/-- The tenant-directory call `GetTenantInfoByNamespace(apiURL, ns)`,
abstracted over the namespace (the API URL argument is the fixed
`oc.openShiftClient.GetAPIURL()`). -/
abbrev TenantGetter := GoStr → Except Err TenantInfo

/-- `controllerImpl.createIfNotExist`: return the (possibly extended)
state, or the error that aborted idler construction.  Mirrors the source:
existence short-circuit, tenant resolution, the `TotalCount > 1` check,
the `len(ti.Data) == 0` check, then `NewUser(ti.Data[0].ID, ns)`, the
user store and the channel store (the idler task itself is out of
scope). -/
def createIfNotExist (tg : TenantGetter) (ns : GoStr) (s : CtrlState) :
    Except Err CtrlState :=
  if (s.users ns).isSome then .ok s
  else
    match tg ns with
    | .error e => .error e
    | .ok ti =>
      if ti.meta.totalCount > 1 then .error (.multipleTenants ti.meta.totalCount)
      else
        match ti.data with
        | [] => .error .noTenant
        | t :: _ =>
          let u := newUser t.id ns
          .ok { users := fun k => if k = ns then some u else s.users k,
                channels := fun k => if k = ns then true else s.channels k }

/-- The body of `HandleBuild` after `createIfNotExist` succeeded: the
active/done branch with its phase-and-name no-op guard, then the
active==done name cleanup.  Returns the new registry state and the list
of notifies sent, in order. -/
def handleBuildUser (b : Build) (ns : GoStr) (s1 : CtrlState) :
    CtrlState × List User :=
  let user := userForNamespace s1 ns
  let step :=
    if isActive b then
      if user.activeBuild.status.phase ≠ b.status.phase
          ∨ user.activeBuild.metadata.name ≠ b.metadata.name then
        let user1 := { user with activeBuild := b }
        (storeUser s1 ns user1, notifyList s1 ns user1, user1)
      else (s1, ([] : List User), user)
    else
      if user.doneBuild.status.phase ≠ b.status.phase
          ∨ user.doneBuild.metadata.name ≠ b.metadata.name then
        let user1 := { user with doneBuild := b }
        (storeUser s1 ns user1, notifyList s1 ns user1, user1)
      else (s1, ([] : List User), user)
  let s2 := step.1
  let n1 := step.2.1
  let u1 := step.2.2
  if u1.activeBuild.metadata.name = u1.doneBuild.metadata.name then
    let user2 := { u1 with activeBuild := Build.newSentinel }
    (storeUser s2 ns user2, n1 ++ notifyList s2 ns user2)
  else (s2, n1)

/-- `controllerImpl.HandleBuild`.  Result: final state, notifies sent (in
order), and the returned error if any. -/
def handleBuild (tg : TenantGetter) (b : Build) (s : CtrlState) :
    CtrlState × List User × Option Err :=
  match createIfNotExist tg b.metadata.nspace s with
  | .error e => (s, [], some e)
  | .ok s1 =>
    let r := handleBuildUser b b.metadata.nspace s1
    (r.1, r.2, none)

/-- A condition entry of a deployment config's `Status.Conditions`. -/
structure Condition where
  condType : GoStr
  status : GoStr
  lastUpdateTime : Int
  deriving DecidableEq, Repr

/-- DC metadata: namespace (carrying the jenkins suffix) and
`Generation`. -/
structure DCMeta where
  nspace : GoStr
  generation : Int
  deriving DecidableEq, Repr

/-- `Spec` of a deployment config: the replica count. -/
structure DCSpec where
  replicas : Int
  deriving DecidableEq, Repr

/-- `Status` of a deployment config. -/
structure DCStatus where
  observedGeneration : Int
  unavailableReplicas : Int
  conditions : List Condition
  deriving DecidableEq, Repr

/-- `model.DCObject` (the `Object` wrapper elided). -/
structure DCObject where
  metadata : DCMeta
  spec : DCSpec
  status : DCStatus
  deriving DecidableEq, Repr

/-- The constant `jenkinsNamespaceSuffix = "-jenkins"`. -/
def jenkinsNamespaceSuffix : GoStr := str "-jenkins"

/-- The constant `availableCond = "Available"`. -/
def availableCond : GoStr := str "Available"

/-- Go slice expression `s[:k]` on a byte string: `none` models the
runtime panic "slice bounds out of range" when `k < 0` or `k > len(s)`. -/
def goSliceUpTo (s : GoStr) (k : Int) : Option GoStr :=
  if 0 ≤ k ∧ k ≤ (s.length : Int) then some (s.take k.toNat) else none

/-- The namespace derivation of `HandleDeploymentConfig`:
`dc.Object.Metadata.Namespace[:len(ns)-len(jenkinsNamespaceSuffix)]`.
`none` models the slice panic for namespaces shorter than the suffix. -/
def dcUserNamespace (nsdc : GoStr) : Option GoStr :=
  goSliceUpTo nsdc ((nsdc.length : Int) - (jenkinsNamespaceSuffix.length : Int))

/-- Modelled from the spec: `model.DCStatus.GetByType` (package
`internal/model`, not among the available sources) — return the condition
with the requested type, or an error when "the required `Available`
condition is missing". -/
def getByType (conds : List Condition) (t : GoStr) : Except Err Condition :=
  match conds.find? (fun c => c.condType == t) with
  | some c => .ok c
  | none => .error .missingCondition

/-- Go's `strconv.ParseBool`: accepts 1, t, T, TRUE, true, True, 0, f, F,
FALSE, false, False; anything else is an error. -/
def parseBool (s : GoStr) : Except Err Bool :=
  if s = str "1" ∨ s = str "t" ∨ s = str "T" ∨ s = str "TRUE"
      ∨ s = str "true" ∨ s = str "True" then .ok true
  else if s = str "0" ∨ s = str "f" ∨ s = str "F" ∨ s = str "FALSE"
      ∨ s = str "false" ∨ s = str "False" then .ok false
  else .error .parseBoolFailed

/-- `controllerImpl.HandleDeploymentConfig`.  `now` is the value of
`time.Now().UTC()` during the call.  The outer `Option` models partiality:
`none` is the slice panic on a namespace shorter than the jenkins suffix.
Otherwise the result is the final state, the notifies sent in order, and
the returned error if any — note that the in-flight-rollout update
precedes the `ParseBool` check, exactly as in the source. -/
def handleDeploymentConfig (tg : TenantGetter) (now : Int) (dc : DCObject)
    (s : CtrlState) : Option (CtrlState × List User × Option Err) :=
  match dcUserNamespace dc.metadata.nspace with
  | none => none
  | some ns =>
    match createIfNotExist tg ns s with
    | .error e => some (s, [], some e)
    | .ok s1 =>
      let user := userForNamespace s1 ns
      match getByType dc.status.conditions availableCond with
      | .error e => some (s1, [], some e)
      | .ok c =>
        let step :=
          if (dc.metadata.generation ≠ dc.status.observedGeneration
                ∧ dc.spec.replicas > 0)
              ∨ dc.status.unavailableReplicas > 0 then
            let user1 := { user with jenkinsLastUpdate := now }
            (storeUser s1 ns user1, notifyList s1 ns user1, user1)
          else (s1, ([] : List User), user)
        let s2 := step.1
        let n1 := step.2.1
        let u1 := step.2.2
        match parseBool c.status with
        | .error e => some (s2, n1, some e)
        | .ok flag =>
          if flag then
            let user2 := { u1 with jenkinsLastUpdate := c.lastUpdateTime }
            some (storeUser s2 ns user2, n1 ++ notifyList s2 ns user2, none)
          else some (s2, n1, none)

/-! ### The control-plane API (package `api`) -/

/-- Modelled from the spec: `model.PodState` (package `internal/model`,
not among the available sources) — "Totally ordered enum:
`Idle < Starting < Running < …`", with the synthetic `Unknown` below and
`Stopping` above (§4.2 lists `{Unknown, Idle, Starting, Running,
Stopping}`).  The Go type is an integer; `code` is that integer. -/
inductive PodState
  | unknown
  | idle
  | starting
  | running
  | stopping
  deriving DecidableEq, Repr

/-- The integer value of a pod state (the order of the spec's enum). -/
def PodState.code : PodState → Nat
  | .unknown => 0
  | .idle => 1
  | .starting => 2
  | .running => 3
  | .stopping => 4

/-- Modelled from the spec: `pidler.JenkinsServices` (package
`internal/idler`, not among the available sources) — "the fixed set of
Jenkins-related services" that every `Idle`/`UnIdle` loop walks; the
Jenkins master and its content repository. -/
def JenkinsServices : List GoStr := [str "jenkins", str "content-repository"]

/-- The cluster view, reduced to what the handlers use: the
URL → bearer-token lookup `GetToken`. -/
structure ClusterView where
  getToken : GoStr → Option GoStr

/-- One HTTP request, reduced to what the handlers read: the first
`openshift_api_url` query value (when present) and the `namespace` route
parameter. -/
structure Request where
  cluster : Option GoStr
  nsParam : GoStr

/-- The external collaborators an API-handler call sees: the cluster
view, and — as pure functions of their full argument lists — the platform
client's `State` and `UnIdle` and the tenant service's
`HasReachedMaxCapacity`. -/
structure ApiEnv where
  cv : ClusterView
  state : GoStr → GoStr → GoStr → GoStr → Except Err PodState
  unIdleCall : GoStr → GoStr → GoStr → GoStr → Option Err
  hasReachedMaxCapacity : GoStr → GoStr → Except Err Bool

/-- `api.getURLAndToken`: read the `openshift_api_url` query parameter,
then look the URL up in the cluster view. -/
def getURLAndToken (cv : ClusterView) (r : Request) : Except Err (GoStr × GoStr) :=
  match r.cluster with
  | none => .error .missingAPIURL
  | some url =>
    match cv.getToken url with
    | some tok => .ok (url, tok)
    | none => .error .unknownAPIURL

/-- Go's `strings.TrimSpace` on the modelled byte string. -/
def trimSpace (s : GoStr) : GoStr :=
  ((s.dropWhile Char.isWhitespace).reverse.dropWhile Char.isWhitespace).reverse

/-- `api.isJenkinsUnIdled`: read the pod state of the "jenkins" service;
report whether it is `Starting` or `Running`. -/
def isJenkinsUnIdled (env : ApiEnv) (url tok ns : GoStr) : Except Err Bool :=
  match env.state url tok ns (str "jenkins") with
  | .error e => .error e
  | .ok st => .ok (st == PodState.starting || st == PodState.running)

/-- The `UnIdle` handler's service loop: call `UnIdle` for each service
in order, stopping at the first failure.  Returns the services actually
called and the first error, if any. -/
def unIdleLoop (env : ApiEnv) (url tok ns : GoStr) :
    List GoStr → List GoStr × Option Err
  | [] => ([], none)
  | svc :: rest =>
    match env.unIdleCall url tok ns svc with
    | some e => ([svc], some e)
    | none =>
      let r := unIdleLoop env url tok ns rest
      (svc :: r.1, r.2)

/-- Observable outcome of one `UnIdle` handler call: HTTP status, the
services `UnIdle` was invoked for (the platform mutations), and whether
the tenant service's capacity check was made. -/
structure UnIdleOut where
  status : Nat
  calls : List GoStr
  capacityChecked : Bool
  deriving DecidableEq, Repr

/-- `api.idler.UnIdle`: URL/token validation (400), namespace check
(400), the already-running short-circuit (200, no action), the capacity
check (503 when full), then the per-service unidle loop (500 on first
failure, 200 when all succeed). -/
def unIdleHandler (env : ApiEnv) (r : Request) : UnIdleOut :=
  match getURLAndToken env.cv r with
  | .error _ => ⟨400, [], false⟩
  | .ok (url, tok) =>
    let ns := trimSpace r.nsParam
    if ns = [] then ⟨400, [], false⟩
    else
      match isJenkinsUnIdled env url tok ns with
      | .error _ => ⟨500, [], false⟩
      | .ok true => ⟨200, [], false⟩
      | .ok false =>
        match env.hasReachedMaxCapacity url ns with
        | .error _ => ⟨500, [], true⟩
        | .ok true => ⟨503, [], true⟩
        | .ok false =>
          let r := unIdleLoop env url tok ns JenkinsServices
          ⟨if r.2.isSome then 500 else 200, r.1, true⟩

/-- Observable outcome of one `IsIdle` handler call: HTTP status and,
on 200, the `is_idle` field of the JSON body. -/
structure IsIdleOut where
  status : Nat
  isIdleBody : Option Bool
  deriving DecidableEq, Repr

/-- `api.idler.IsIdle`: URL/token validation (400), pod-state read (500
on failure), then `{is_idle: state < model.PodRunning}` with 200. -/
def isIdleHandler (env : ApiEnv) (r : Request) : IsIdleOut :=
  match getURLAndToken env.cv r with
  | .error _ => ⟨400, none⟩
  | .ok (url, tok) =>
    match env.state url tok r.nsParam (str "jenkins") with
    | .error _ => ⟨500, none⟩
    | .ok st => ⟨200, some (decide (st.code < PodState.running.code))⟩

/-- Modelled from the spec: `model.StringSet` (package `internal/model`,
not among the available sources) — the process-wide disabled-users set.
Modelled as a list of keys up to membership; `Add` inserts every given
id, `Remove` deletes every given id. -/
structure StringSet where
  keys : List GoStr
  deriving DecidableEq, Repr

/-- `StringSet.Add`: insert all the given ids. -/
def StringSet.add (s : StringSet) (xs : List GoStr) : StringSet :=
  ⟨s.keys ++ xs⟩

/-- `StringSet.Remove`: delete all the given ids. -/
def StringSet.remove (s : StringSet) (xs : List GoStr) : StringSet :=
  ⟨s.keys.filter (fun k => !(xs.contains k))⟩

/-- `StringSet` membership. -/
def StringSet.memb (s : StringSet) (x : GoStr) : Bool :=
  s.keys.contains x

/-- Derived characterisation of `HandleBuild`'s active/done branch as a
pure transformation of the stored user (the branch conditions are those
of the source, verbatim). -/
def branchUser (b : Build) (u : User) : User :=
  if isActive b then
    if u.activeBuild.status.phase ≠ b.status.phase
        ∨ u.activeBuild.metadata.name ≠ b.metadata.name then
      { u with activeBuild := b }
    else u
  else
    if u.doneBuild.status.phase ≠ b.status.phase
        ∨ u.doneBuild.metadata.name ≠ b.metadata.name then
      { u with doneBuild := b }
    else u

/-- Derived characterisation of the full user transformation one
`HandleBuild` call applies to the stored user: branch update, then the
active==done name cleanup. -/
def finalUser (b : Build) (u : User) : User :=
  let u1 := branchUser b u
  if u1.activeBuild.metadata.name = u1.doneBuild.metadata.name then
    { u1 with activeBuild := Build.newSentinel }
  else u1

/-- The decoded body of `PUT /users`: `{disable:[…], enable:[…]}`. -/
structure UserStatusBody where
  disable : List GoStr
  enable : List GoStr
  deriving DecidableEq, Repr

/-- `api.idler.SetUserIdlerStatus`: a body that fails to decode is a 400
and leaves the set untouched; otherwise `disabledUsers.Add(Disable)` then
`disabledUsers.Remove(Enable)` and 200 — "enabled users will take
precedence over disabled". -/
def setUserIdlerStatus (body : Option UserStatusBody) (du : StringSet) :
    Nat × StringSet :=
  match body with
  | none => (400, du)
  | some us => (200, (du.add us.disable).remove us.enable)

/-! ### Concrete scenario used by the counterexamples and witnesses -/

/-- A registry state holding the single user of namespace `alice`, with a
live idler channel for it. -/
def cexState (u : User) : CtrlState :=
  { users := fun k => if k = str "alice" then some u else none,
    channels := fun k => k == str "alice" }

/-- A tenant getter that always fails — usable whenever the namespace
already exists in the registry, where `createIfNotExist` never consults
the directory. -/
def tgUnused : TenantGetter := fun _ => .error .tenantCallFailed

/-- The empty registry. -/
def emptyState : CtrlState := { users := fun _ => none, channels := fun _ => false }

/-- A concrete cluster view knowing one cluster URL. -/
def cvC : ClusterView :=
  ⟨fun u => if u = str "https://c1" then some (str "tok") else none⟩

/-- A concrete request naming that cluster and namespace `bob`. -/
def reqC : Request := ⟨some (str "https://c1"), str "bob"⟩

/-- Platform reports `Running`; capacity available; unidles succeed. -/
def envRunning : ApiEnv :=
  ⟨cvC, fun _ _ _ _ => .ok .running, fun _ _ _ _ => none, fun _ _ => .ok false⟩

/-- Platform reports `Idle`; cluster full. -/
def envIdleFull : ApiEnv :=
  ⟨cvC, fun _ _ _ _ => .ok .idle, fun _ _ _ _ => none, fun _ _ => .ok true⟩

/-- Platform reports `Idle`; capacity available; unidles succeed. -/
def envIdleOk : ApiEnv :=
  ⟨cvC, fun _ _ _ _ => .ok .idle, fun _ _ _ _ => none, fun _ _ => .ok false⟩

/-! ### Supporting lemmas -/

set_option maxHeartbeats 1000000

lemma Phases_new : Phases (str "New") = -1 := by decide

lemma phase_ne_new_of_isActive (b : Build) (h : isActive b = true) :
    b.status.phase ≠ str "New" := by
  intro hn
  rw [isActive, hn, Phases_new] at h
  simp at h

lemma storeUser_users (s : CtrlState) (ns : GoStr) (u : User) (k : GoStr) :
    (storeUser s ns u).users k = if k = ns then some u else s.users k := rfl

lemma storeUser_channels (s : CtrlState) (ns : GoStr) (u : User) :
    (storeUser s ns u).channels = s.channels := rfl

lemma handleBuildUser_state (b : Build) (ns : GoStr) (s1 : CtrlState) (u0 : User)
    (h : s1.users ns = some u0) :
    (handleBuildUser b ns s1).1
      = { users := fun k => if k = ns then some (finalUser b u0) else s1.users k,
          channels := s1.channels } := by
  have hu : userForNamespace s1 ns = u0 := by
    rw [userForNamespace, h]; rfl
  simp only [handleBuildUser, hu, finalUser, branchUser]
  split_ifs <;>
    ext k <;>
    by_cases hk : k = ns <;>
    simp_all [storeUser]

lemma handleBuildUser_users_some (b : Build) (ns : GoStr) (s1 : CtrlState)
    (u0 : User) (h : s1.users ns = some u0) :
    (handleBuildUser b ns s1).1.users ns = some (finalUser b u0) := by
  rw [handleBuildUser_state b ns s1 u0 h]
  simp

lemma finalUser_idem (b : Build) (u : User) :
    finalUser b (finalUser b u) = finalUser b u := by
  by_cases hA : isActive b = true
  · have hnew : b.status.phase ≠ str "New" := phase_ne_new_of_isActive b hA
    simp only [finalUser, branchUser, hA, if_true]
    split_ifs <;> simp_all [Build.newSentinel]
  · simp only [finalUser, branchUser, hA, if_false, Bool.not_eq_true] at *
    split_ifs <;> simp_all [Build.newSentinel]

lemma createIfNotExist_of_isSome (tg : TenantGetter) (ns : GoStr)
    (s : CtrlState) (h : (s.users ns).isSome) :
    createIfNotExist tg ns s = .ok s := by
  rw [createIfNotExist, if_pos h]

lemma createIfNotExist_ok_isSome (tg : TenantGetter) (ns : GoStr)
    (s s1 : CtrlState) (h : createIfNotExist tg ns s = .ok s1) :
    (s1.users ns).isSome := by
  by_cases hs : (s.users ns).isSome
  · rw [createIfNotExist, if_pos hs] at h; cases h; exact hs
  · rcases htg : tg ns with e | ti
    · simp [createIfNotExist, hs, htg] at h
    · by_cases hc : ti.meta.totalCount > 1
      · simp [createIfNotExist, hs, htg, hc] at h
      · rcases hd : ti.data with _ | ⟨t, rest⟩
        · simp [createIfNotExist, hs, htg, hc, hd] at h
        · simp [createIfNotExist, hs, htg, hc, hd] at h
          rw [← h]
          simp

lemma isActive_false_of_other (b : Build)
    (h : activityOf b.status.phase = Activity.other) : isActive b = false := by
  by_cases h1 : Phases b.status.phase = 1
  · rw [activityOf, if_pos h1] at h; simp at h
  · simp [isActive, h1]

lemma handleBuild_post (tg : TenantGetter) (b : Build) (s : CtrlState)
    (u0 : User) (h0 : s.users b.metadata.nspace = some u0) :
    (handleBuild tg b s).2.2 = none ∧
    userForNamespace (handleBuild tg b s).1 b.metadata.nspace = finalUser b u0 := by
  have hc : createIfNotExist tg b.metadata.nspace s = .ok s :=
    createIfNotExist_of_isSome _ _ _ (by rw [h0]; rfl)
  refine ⟨by simp [handleBuild, hc], ?_⟩
  have h1 : (handleBuild tg b s).1 = (handleBuildUser b b.metadata.nspace s).1 := by
    simp [handleBuild, hc]
  rw [h1, userForNamespace, handleBuildUser_state b _ s u0 h0]
  simp

lemma finalUser_active_cases (b : Build) (u : User) (hA : isActive b = true) :
    ((finalUser b u).activeBuild.status.phase = b.status.phase
      ∧ (finalUser b u).activeBuild.metadata.name = b.metadata.name)
    ∨ ((finalUser b u).activeBuild = Build.newSentinel
      ∧ (finalUser b u).doneBuild.metadata.name = b.metadata.name) := by
  unfold finalUser branchUser
  rw [hA]
  simp only [if_true]
  split_ifs <;> simp_all

lemma finalUser_other_cases (b : Build) (u : User) (hA : isActive b = false) :
    ((finalUser b u).activeBuild = u.activeBuild
      ∨ (finalUser b u).activeBuild = Build.newSentinel) ∧
    ((finalUser b u).doneBuild = b ∨ (finalUser b u).doneBuild = u.doneBuild) := by
  unfold finalUser branchUser
  rw [hA]
  simp only [Bool.false_eq_true, if_false]
  split_ifs <;> simp_all

lemma finalUser_done_branch (b : Build) (u : User) (hA : isActive b = false) :
    ((u.doneBuild.status.phase ≠ b.status.phase
        ∨ u.doneBuild.metadata.name ≠ b.metadata.name) →
      (finalUser b u).doneBuild = b) ∧
    ((u.doneBuild.status.phase = b.status.phase
        ∧ u.doneBuild.metadata.name = b.metadata.name) →
      (finalUser b u).doneBuild = u.doneBuild) := by
  unfold finalUser branchUser
  rw [hA]
  simp only [Bool.false_eq_true, if_false]
  constructor <;> intro hg <;> split_ifs <;> simp_all

lemma unIdleLoop_all_ok (env : ApiEnv) (url tok ns : GoStr) (l : List GoStr)
    (h : ∀ svc ∈ l, env.unIdleCall url tok ns svc = none) :
    unIdleLoop env url tok ns l = (l, none) := by
  induction l with
  | nil => rfl
  | cons svc rest ih =>
    have hsvc : env.unIdleCall url tok ns svc = none := h svc (by simp)
    have hrest : ∀ s, s ∈ rest → env.unIdleCall url tok ns s = none := by
      intro s hs
      exact h s (by simp [hs])
    simp [unIdleLoop, hsvc, ih hrest]

lemma unIdleLoop_no_err_all_ok (env : ApiEnv) (url tok ns : GoStr) (l : List GoStr)
    (h : (unIdleLoop env url tok ns l).2 = none) :
    ∀ svc ∈ l, env.unIdleCall url tok ns svc = none := by
  induction l with
  | nil => intro svc hsvc; cases hsvc
  | cons svc rest ih =>
    intro s hs
    rcases hcall : env.unIdleCall url tok ns svc with _ | e
    · rw [unIdleLoop, hcall] at h
      simp at h
      cases hs with
      | head => exact hcall
      | tail _ hs2 => exact ih h s hs2
    · rw [unIdleLoop, hcall] at h
      simp at h

/-! ### Claim theorems -/

/-- C1 counterexample.  The claim says a second `HandleBuild` with the
identical build produces no additional notify.  Concrete refutation: the
fresh user of namespace `alice` receives a `Complete` build with empty
name; the first call updates DoneBuild and — because the cleanup guard
compares names without a non-emptiness check and both names are empty —
also fires the cleanup.  On the second, identical call the cleanup guard
holds again (both names still empty), so the reset is re-stored and a
further notify is sent. -/
theorem c1_counterexample_second_call_notifies :
    (handleBuild tgUnused ⟨⟨[], str "alice"⟩, ⟨str "Complete"⟩⟩
        ((handleBuild tgUnused ⟨⟨[], str "alice"⟩, ⟨str "Complete"⟩⟩
          (cexState (newUser (str "T") (str "alice")))).1)).2.1 ≠ ([] : List User) := by
  decide

/-- C1 (amended): two consecutive `HandleBuild` calls with identical
builds leave the stored state exactly as one call does — the second call
never changes any user record — but the second call is not notify-free:
whenever the cleanup guard `ActiveBuild.name == DoneBuild.name` holds
again after the second call's branch processing (the guard has no
non-emptiness check), the cleanup re-fires and sends further notifies. -/
theorem c1_amended_handleBuild_state_idempotent (tg : TenantGetter)
    (b : Build) (s : CtrlState) :
    (handleBuild tg b (handleBuild tg b s).1).1 = (handleBuild tg b s).1 := by
  rcases hc1 : createIfNotExist tg b.metadata.nspace s with e | s1
  · simp [handleBuild, hc1]
  · obtain ⟨u0, hu0⟩ := Option.isSome_iff_exists.mp
      (createIfNotExist_ok_isSome tg _ s s1 hc1)
    have hst1 := handleBuildUser_state b b.metadata.nspace s1 u0 hu0
    have h1 : (handleBuild tg b s).1 = (handleBuildUser b b.metadata.nspace s1).1 := by
      simp [handleBuild, hc1]
    rw [h1]
    set X := (handleBuildUser b b.metadata.nspace s1).1 with hX
    have hsome2 : X.users b.metadata.nspace = some (finalUser b u0) := by
      rw [hst1]; simp
    have hc2 : createIfNotExist tg b.metadata.nspace X = .ok X :=
      createIfNotExist_of_isSome _ _ _ (by rw [hsome2]; rfl)
    have hst2 := handleBuildUser_state b b.metadata.nspace X (finalUser b u0) hsome2
    have h2 : (handleBuild tg b X).1 = (handleBuildUser b b.metadata.nspace X).1 := by
      simp [handleBuild, hc2]
    rw [h2, hst2, hst1]
    ext k
    · by_cases hk : k = b.metadata.nspace <;> simp [hk, finalUser_idem]
    · simp

/-- C2 counterexample.  The claim says a malformed DC event (here: the
`Available` condition present but with the unparseable status `banana`)
is rejected with no state change and no notify.  Concretely, for a DC
with `Generation = 5 ≠ ObservedGeneration = 4` and one replica, the
in-flight-rollout update fires *before* the status parse: the call
returns the parse error, yet one notify was sent and the stored user's
`JenkinsLastUpdate` was overwritten with the current time (99). -/
theorem c2_counterexample_parse_failure_mutates :
    ((handleDeploymentConfig tgUnused 99
        { metadata := ⟨str "alice-jenkins", 5⟩, spec := ⟨1⟩,
          status := ⟨4, 0, [⟨str "Available", str "banana", 77⟩]⟩ }
        (cexState (newUser (str "T") (str "alice")))).getD
      (cexState (newUser (str "T") (str "alice")), [], none)).2.2
        = some Err.parseBoolFailed ∧
    ((handleDeploymentConfig tgUnused 99
        { metadata := ⟨str "alice-jenkins", 5⟩, spec := ⟨1⟩,
          status := ⟨4, 0, [⟨str "Available", str "banana", 77⟩]⟩ }
        (cexState (newUser (str "T") (str "alice")))).getD
      (cexState (newUser (str "T") (str "alice")), [], none)).2.1.length = 1 ∧
    (userForNamespace
      ((handleDeploymentConfig tgUnused 99
          { metadata := ⟨str "alice-jenkins", 5⟩, spec := ⟨1⟩,
            status := ⟨4, 0, [⟨str "Available", str "banana", 77⟩]⟩ }
          (cexState (newUser (str "T") (str "alice")))).getD
        (cexState (newUser (str "T") (str "alice")), [], none)).1
      (str "alice")).jenkinsLastUpdate = 99 := by
  decide

/-- C2 (amended): for a deployment-config event of an already-registered
namespace, a missing `Available` condition makes `HandleDeploymentConfig`
return an error with the state unchanged and no notify; a present but
unparseable condition status also makes it return an error, but the final
state is then either unchanged or already carries the in-flight-rollout
write of `JenkinsLastUpdate := now` (with its notify), because the
rollout update precedes the parse in the source. -/
theorem c2_amended_malformed_dc (tg : TenantGetter) (now : Int) (dc : DCObject)
    (s : CtrlState) (ns : GoStr) (u0 : User)
    (hns : dcUserNamespace dc.metadata.nspace = some ns)
    (h0 : s.users ns = some u0) :
    (getByType dc.status.conditions availableCond = .error Err.missingCondition →
      handleDeploymentConfig tg now dc s = some (s, [], some Err.missingCondition)) ∧
    (∀ c, getByType dc.status.conditions availableCond = .ok c →
      parseBool c.status = .error Err.parseBoolFailed →
      ∃ st n, handleDeploymentConfig tg now dc s = some (st, n, some Err.parseBoolFailed)
        ∧ (st = s ∨ st = storeUser s ns { u0 with jenkinsLastUpdate := now })) := by
  have hc : createIfNotExist tg ns s = .ok s :=
    createIfNotExist_of_isSome _ _ _ (by rw [h0]; rfl)
  have hu : userForNamespace s ns = u0 := by
    rw [userForNamespace, h0]; rfl
  constructor
  · intro hmiss
    simp [handleDeploymentConfig, hns, hc, hmiss]
  · intro c hcond hparse
    by_cases hroll : (dc.metadata.generation ≠ dc.status.observedGeneration
        ∧ dc.spec.replicas > 0) ∨ dc.status.unavailableReplicas > 0
    · refine ⟨storeUser s ns { u0 with jenkinsLastUpdate := now },
        notifyList s ns { u0 with jenkinsLastUpdate := now }, ?_, Or.inr rfl⟩
      simp [handleDeploymentConfig, hns, hc, hcond, hu, hroll, hparse]
    · refine ⟨s, [], ?_, Or.inl rfl⟩
      simp [handleDeploymentConfig, hns, hc, hcond, hu, hroll, hparse]

/-- C2 witness: a DC event for the registered namespace `alice` whose
condition list is empty — the call errors with `missingCondition`, the
state is returned untouched and no notify is sent. -/
theorem c2_amended_witness :
    handleDeploymentConfig tgUnused 55
      { metadata := ⟨str "alice-jenkins", 5⟩, spec := ⟨1⟩, status := ⟨5, 0, []⟩ }
      (cexState (newUser (str "T") (str "alice")))
        = some (cexState (newUser (str "T") (str "alice")), [], some Err.missingCondition) :=
  (c2_amended_malformed_dc tgUnused 55
    { metadata := ⟨str "alice-jenkins", 5⟩, spec := ⟨1⟩, status := ⟨5, 0, []⟩ }
    (cexState (newUser (str "T") (str "alice"))) (str "alice")
    (newUser (str "T") (str "alice")) (by decide) (by decide)).1 (by decide)

/-- C3 counterexample.  The claim says a build whose phase classifies as
"other" (the initial `New` phase) leaves both `ActiveBuild` and
`DoneBuild` unchanged.  Concretely, the fresh user of namespace `alice`
receives a build named `b1` with phase `New`: `HandleBuild` returns
without error but `DoneBuild` has changed — the source has only an
active branch and an else branch, and every non-active build falls into
the `DoneBuild` branch. -/
theorem c3_counterexample_new_phase_updates_doneBuild :
    activityOf (str "New") = Activity.other ∧
    (handleBuild tgUnused ⟨⟨str "b1", str "alice"⟩, ⟨str "New"⟩⟩
        (cexState (newUser (str "T") (str "alice")))).2.2 = none ∧
    (userForNamespace
        (handleBuild tgUnused ⟨⟨str "b1", str "alice"⟩, ⟨str "New"⟩⟩
          (cexState (newUser (str "T") (str "alice")))).1 (str "alice")).doneBuild
      ≠ (newUser (str "T") (str "alice")).doneBuild := by
  decide

/-- C3 (amended): a build whose phase classifies as "other" is handled
exactly like a done build: it is never promoted to `ActiveBuild` (the
stored `ActiveBuild` is either untouched or reset to the `New` sentinel
by the cleanup), but it is promoted to `DoneBuild` exactly when its
(phase, name) differ from the stored done build — `DoneBuild` becomes
the incoming build then, and stays untouched otherwise. -/
theorem c3_amended_other_phase_is_done_branch (tg : TenantGetter) (b : Build)
    (s : CtrlState) (u0 : User)
    (h0 : s.users b.metadata.nspace = some u0)
    (hoth : activityOf b.status.phase = Activity.other) :
    (handleBuild tg b s).2.2 = none ∧
    ((userForNamespace (handleBuild tg b s).1 b.metadata.nspace).activeBuild = u0.activeBuild
      ∨ (userForNamespace (handleBuild tg b s).1 b.metadata.nspace).activeBuild = Build.newSentinel) ∧
    ((u0.doneBuild.status.phase ≠ b.status.phase
        ∨ u0.doneBuild.metadata.name ≠ b.metadata.name) →
      (userForNamespace (handleBuild tg b s).1 b.metadata.nspace).doneBuild = b) ∧
    ((u0.doneBuild.status.phase = b.status.phase
        ∧ u0.doneBuild.metadata.name = b.metadata.name) →
      (userForNamespace (handleBuild tg b s).1 b.metadata.nspace).doneBuild = u0.doneBuild) := by
  obtain ⟨herr, hpost⟩ := handleBuild_post tg b s u0 h0
  have hA : isActive b = false := isActive_false_of_other b hoth
  refine ⟨herr, ?_, ?_, ?_⟩ <;> rw [hpost]
  · exact (finalUser_other_cases b u0 hA).1
  · exact (finalUser_done_branch b u0 hA).1
  · exact (finalUser_done_branch b u0 hA).2

/-- C3 witness: the amended statement at the concrete `New`-phase build
of the C3 counterexample scenario — the stored done build (the zero
build) differs from the incoming `b1`, so the conditional-promotion
clause applies there. -/
theorem c3_amended_witness :
    (handleBuild tgUnused ⟨⟨str "b1", str "alice"⟩, ⟨str "New"⟩⟩
        (cexState (newUser (str "T") (str "alice")))).2.2 = none ∧
    ((userForNamespace (handleBuild tgUnused ⟨⟨str "b1", str "alice"⟩, ⟨str "New"⟩⟩
          (cexState (newUser (str "T") (str "alice")))).1 (str "alice")).activeBuild
        = (newUser (str "T") (str "alice")).activeBuild
      ∨ (userForNamespace (handleBuild tgUnused ⟨⟨str "b1", str "alice"⟩, ⟨str "New"⟩⟩
          (cexState (newUser (str "T") (str "alice")))).1 (str "alice")).activeBuild
        = Build.newSentinel) ∧
    (((newUser (str "T") (str "alice")).doneBuild.status.phase ≠ str "New"
        ∨ (newUser (str "T") (str "alice")).doneBuild.metadata.name ≠ str "b1") →
      (userForNamespace (handleBuild tgUnused ⟨⟨str "b1", str "alice"⟩, ⟨str "New"⟩⟩
          (cexState (newUser (str "T") (str "alice")))).1 (str "alice")).doneBuild
        = ⟨⟨str "b1", str "alice"⟩, ⟨str "New"⟩⟩) ∧
    (((newUser (str "T") (str "alice")).doneBuild.status.phase = str "New"
        ∧ (newUser (str "T") (str "alice")).doneBuild.metadata.name = str "b1") →
      (userForNamespace (handleBuild tgUnused ⟨⟨str "b1", str "alice"⟩, ⟨str "New"⟩⟩
          (cexState (newUser (str "T") (str "alice")))).1 (str "alice")).doneBuild
        = (newUser (str "T") (str "alice")).doneBuild) :=
  c3_amended_other_phase_is_done_branch tgUnused
    ⟨⟨str "b1", str "alice"⟩, ⟨str "New"⟩⟩
    (cexState (newUser (str "T") (str "alice")))
    (newUser (str "T") (str "alice")) (by decide) (by decide)

/-- C4 counterexample.  The claim says that after `HandleBuild(b)` with
an active build, either the stored `ActiveBuild` equals `b`, or
`ActiveBuild.name == DoneBuild.name` with phase `New`.  Concretely, user
`alice` has `DoneBuild` named `x` and receives the active build `x`
(phase `Running`): the cleanup resets `ActiveBuild` to the sentinel —
whose metadata is *zeroed*, so its name is empty while `DoneBuild.name`
is still `x`.  Neither disjunct holds. -/
theorem c4_counterexample_reset_breaks_invariant :
    isActive ⟨⟨str "x", str "alice"⟩, ⟨str "Running"⟩⟩ = true ∧
    ¬ ((userForNamespace
          (handleBuild tgUnused ⟨⟨str "x", str "alice"⟩, ⟨str "Running"⟩⟩
            (cexState { newUser (str "T") (str "alice") with
              doneBuild := ⟨⟨str "x", str "alice"⟩, ⟨str "Complete"⟩⟩ })).1
          (str "alice")).activeBuild
        = ⟨⟨str "x", str "alice"⟩, ⟨str "Running"⟩⟩
      ∨ ((userForNamespace
            (handleBuild tgUnused ⟨⟨str "x", str "alice"⟩, ⟨str "Running"⟩⟩
              (cexState { newUser (str "T") (str "alice") with
                doneBuild := ⟨⟨str "x", str "alice"⟩, ⟨str "Complete"⟩⟩ })).1
            (str "alice")).activeBuild.metadata.name
          = (userForNamespace
              (handleBuild tgUnused ⟨⟨str "x", str "alice"⟩, ⟨str "Running"⟩⟩
                (cexState { newUser (str "T") (str "alice") with
                  doneBuild := ⟨⟨str "x", str "alice"⟩, ⟨str "Complete"⟩⟩ })).1
              (str "alice")).doneBuild.metadata.name
        ∧ (userForNamespace
            (handleBuild tgUnused ⟨⟨str "x", str "alice"⟩, ⟨str "Running"⟩⟩
              (cexState { newUser (str "T") (str "alice") with
                doneBuild := ⟨⟨str "x", str "alice"⟩, ⟨str "Complete"⟩⟩ })).1
            (str "alice")).activeBuild.status.phase = str "New")) := by
  decide

/-- C4 (amended): after `HandleBuild(b)` with an active build on a
registered namespace, either the stored `ActiveBuild` agrees with `b` on
phase and name, or it is the `New` sentinel (with zeroed, hence empty,
metadata) and the stored `DoneBuild` carries `b`'s name.  (The cleanup's
guard compares names without any non-emptiness check.) -/
theorem c4_amended_active_postcondition (tg : TenantGetter) (b : Build)
    (s : CtrlState) (u0 : User)
    (h0 : s.users b.metadata.nspace = some u0)
    (hA : isActive b = true) :
    ((userForNamespace (handleBuild tg b s).1 b.metadata.nspace).activeBuild.status.phase
        = b.status.phase
      ∧ (userForNamespace (handleBuild tg b s).1 b.metadata.nspace).activeBuild.metadata.name
        = b.metadata.name)
    ∨ ((userForNamespace (handleBuild tg b s).1 b.metadata.nspace).activeBuild
        = Build.newSentinel
      ∧ (userForNamespace (handleBuild tg b s).1 b.metadata.nspace).doneBuild.metadata.name
        = b.metadata.name) := by
  obtain ⟨herr, hpost⟩ := handleBuild_post tg b s u0 h0
  rw [hpost]
  exact finalUser_active_cases b u0 hA

/-- C4 witness: the amended statement at a concrete `Running` build for
the registered user `alice`. -/
theorem c4_amended_witness :
    ((userForNamespace (handleBuild tgUnused ⟨⟨str "b9", str "alice"⟩, ⟨str "Running"⟩⟩
          (cexState (newUser (str "T") (str "alice")))).1 (str "alice")).activeBuild.status.phase
        = str "Running"
      ∧ (userForNamespace (handleBuild tgUnused ⟨⟨str "b9", str "alice"⟩, ⟨str "Running"⟩⟩
          (cexState (newUser (str "T") (str "alice")))).1 (str "alice")).activeBuild.metadata.name
        = str "b9")
    ∨ ((userForNamespace (handleBuild tgUnused ⟨⟨str "b9", str "alice"⟩, ⟨str "Running"⟩⟩
          (cexState (newUser (str "T") (str "alice")))).1 (str "alice")).activeBuild
        = Build.newSentinel
      ∧ (userForNamespace (handleBuild tgUnused ⟨⟨str "b9", str "alice"⟩, ⟨str "Running"⟩⟩
          (cexState (newUser (str "T") (str "alice")))).1 (str "alice")).doneBuild.metadata.name
        = str "b9") :=
  c4_amended_active_postcondition tgUnused ⟨⟨str "b9", str "alice"⟩, ⟨str "Running"⟩⟩
    (cexState (newUser (str "T") (str "alice")))
    (newUser (str "T") (str "alice")) (by decide) (by decide)

/-- C5: for a namespace absent from the registry, `createIfNotExist`
resolves it through the tenant directory and (1) propagates a failing
directory call as an error, (2) errors when the directory reports more
than one tenant, (3) errors when no tenant is in the returned data, and
(4) otherwise creates the user with the first returned tenant's id and
its idler channel, touching no other namespace.  An error produces no
state, so neither a user record nor an idler is created then. -/
theorem c5_createIfNotExist_resolution (tg : TenantGetter) (ns : GoStr)
    (s : CtrlState) (h0 : s.users ns = none) :
    (∀ e, tg ns = .error e → createIfNotExist tg ns s = .error e) ∧
    (∀ ti, tg ns = .ok ti → ti.meta.totalCount > 1 →
      createIfNotExist tg ns s = .error (.multipleTenants ti.meta.totalCount)) ∧
    (∀ ti, tg ns = .ok ti → ti.data = [] →
      ∃ e, createIfNotExist tg ns s = .error e) ∧
    (∀ ti t rest, tg ns = .ok ti → ¬ ti.meta.totalCount > 1 → ti.data = t :: rest →
      ∃ s1, createIfNotExist tg ns s = .ok s1
        ∧ s1.users ns = some (newUser t.id ns)
        ∧ s1.channels ns = true
        ∧ (∀ k, k ≠ ns → s1.users k = s.users k ∧ s1.channels k = s.channels k)) := by
  have hs : ¬ (s.users ns).isSome := by rw [h0]; simp
  refine ⟨?_, ?_, ?_, ?_⟩
  · intro e he
    simp [createIfNotExist, hs, he]
  · intro ti hti hc
    simp [createIfNotExist, hs, hti, hc]
  · intro ti hti hd
    by_cases hc : ti.meta.totalCount > 1
    · exact ⟨.multipleTenants ti.meta.totalCount,
        by simp [createIfNotExist, hs, hti, hc]⟩
    · exact ⟨.noTenant, by simp [createIfNotExist, hs, hti, hc, hd]⟩
  · intro ti t rest hti hc hd
    refine ⟨{ users := fun k => if k = ns then some (newUser t.id ns) else s.users k,
              channels := fun k => if k = ns then true else s.channels k },
      by simp [createIfNotExist, hs, hti, hc, hd], ?_, ?_, ?_⟩
    · simp
    · simp
    · intro k hk
      simp [hk]

/-- C5 witness: on the empty registry, a failing directory call yields
that error and a single-tenant response creates `bob`'s user with the
returned id, leaving every other namespace untouched. -/
theorem c5_witness :
    (createIfNotExist (fun _ => .error .tenantCallFailed) (str "bob") emptyState
        = .error Err.tenantCallFailed) ∧
    (∃ s1, createIfNotExist (fun _ => .ok ⟨⟨1⟩, [⟨str "T-bob"⟩]⟩) (str "bob") emptyState
        = .ok s1
      ∧ s1.users (str "bob") = some (newUser (str "T-bob") (str "bob"))
      ∧ s1.channels (str "bob") = true
      ∧ (∀ k, k ≠ str "bob" → s1.users k = emptyState.users k
          ∧ s1.channels k = emptyState.channels k)) :=
  ⟨(c5_createIfNotExist_resolution (fun _ => .error .tenantCallFailed) (str "bob")
      emptyState rfl).1 .tenantCallFailed rfl,
   (c5_createIfNotExist_resolution (fun _ => .ok ⟨⟨1⟩, [⟨str "T-bob"⟩]⟩) (str "bob")
      emptyState rfl).2.2.2 ⟨⟨1⟩, [⟨str "T-bob"⟩]⟩ ⟨str "T-bob"⟩ [] rfl
      (by decide) rfl⟩

/-- C6: for an unidle request with a valid cluster URL and a non-empty
(trimmed) namespace: a pod state of `Starting` or `Running` yields 200
with no `UnIdle` call and no capacity check; otherwise, a full cluster
yields 503 with no `UnIdle` call; otherwise all Jenkins services succeed
iff the handler calls `UnIdle` for every service of the fixed set and
returns 200. -/
theorem c6_unidle_conditional_flow (env : ApiEnv) (r : Request) (url tok : GoStr)
    (hurl : getURLAndToken env.cv r = .ok (url, tok))
    (hns : trimSpace r.nsParam ≠ []) :
    (∀ st, env.state url tok (trimSpace r.nsParam) (str "jenkins") = .ok st →
      (st = PodState.starting ∨ st = PodState.running) →
      unIdleHandler env r = ⟨200, [], false⟩) ∧
    (∀ st, env.state url tok (trimSpace r.nsParam) (str "jenkins") = .ok st →
      ¬ (st = PodState.starting ∨ st = PodState.running) →
      env.hasReachedMaxCapacity url (trimSpace r.nsParam) = .ok true →
      unIdleHandler env r = ⟨503, [], true⟩) ∧
    (∀ st, env.state url tok (trimSpace r.nsParam) (str "jenkins") = .ok st →
      ¬ (st = PodState.starting ∨ st = PodState.running) →
      env.hasReachedMaxCapacity url (trimSpace r.nsParam) = .ok false →
      ((∀ svc ∈ JenkinsServices, env.unIdleCall url tok (trimSpace r.nsParam) svc = none)
        ↔ unIdleHandler env r = ⟨200, JenkinsServices, true⟩)) := by
  refine ⟨?_, ?_, ?_⟩
  · intro st hst hrun
    have hj : isJenkinsUnIdled env url tok (trimSpace r.nsParam) = .ok true := by
      rw [isJenkinsUnIdled, hst]
      rcases hrun with h | h <;> simp [h]
    simp [unIdleHandler, hurl, hns, hj]
  · intro st hst hrun hcap
    have hj : isJenkinsUnIdled env url tok (trimSpace r.nsParam) = .ok false := by
      rw [isJenkinsUnIdled, hst]
      rcases st <;> simp_all
    simp [unIdleHandler, hurl, hns, hj, hcap]
  · intro st hst hrun hcap
    have hj : isJenkinsUnIdled env url tok (trimSpace r.nsParam) = .ok false := by
      rw [isJenkinsUnIdled, hst]
      rcases st <;> simp_all
    constructor
    · intro hall
      simp [unIdleHandler, hurl, hns, hj, hcap,
        unIdleLoop_all_ok env url tok (trimSpace r.nsParam) JenkinsServices hall]
    · intro hout
      simp only [unIdleHandler, hurl, hns, hj, hcap] at hout
      simp at hout
      rcases herr : (unIdleLoop env url tok (trimSpace r.nsParam) JenkinsServices).2 with _ | e
      · exact unIdleLoop_no_err_all_ok env url tok (trimSpace r.nsParam) JenkinsServices herr
      · rw [herr] at hout
        simp at hout

/-- C6 witness: the three paths at concrete environments — already
running (200, nothing called, no capacity check), idle with a full
cluster (503, nothing called), and idle with capacity (200 with every
Jenkins service unidled). -/
theorem c6_witness :
    unIdleHandler envRunning reqC = ⟨200, [], false⟩ ∧
    unIdleHandler envIdleFull reqC = ⟨503, [], true⟩ ∧
    unIdleHandler envIdleOk reqC = ⟨200, JenkinsServices, true⟩ :=
  ⟨(c6_unidle_conditional_flow envRunning reqC (str "https://c1") (str "tok")
      (by decide) (by decide)).1 .running (by decide) (by decide),
   (c6_unidle_conditional_flow envIdleFull reqC (str "https://c1") (str "tok")
      (by decide) (by decide)).2.1 .idle (by decide) (by decide) (by decide),
   ((c6_unidle_conditional_flow envIdleOk reqC (str "https://c1") (str "tok")
      (by decide) (by decide)).2.2 .idle (by decide) (by decide) (by decide)).mp
      (by decide)⟩

/-- C7: for an isidle request with a valid cluster URL and a successful
pod-state read, the handler answers 200 and the body's `is_idle` field is
true iff the reported state is strictly below `Running` in the pod-state
order. -/
theorem c7_isidle_iff_below_running (env : ApiEnv) (r : Request) (url tok : GoStr)
    (st : PodState)
    (hurl : getURLAndToken env.cv r = .ok (url, tok))
    (hst : env.state url tok r.nsParam (str "jenkins") = .ok st) :
    isIdleHandler env r = ⟨200, some (decide (st.code < PodState.running.code))⟩ ∧
    ((isIdleHandler env r).isIdleBody = some true ↔ st.code < PodState.running.code) := by
  have hmain : isIdleHandler env r
      = ⟨200, some (decide (st.code < PodState.running.code))⟩ := by
    simp [isIdleHandler, hurl, hst]
  refine ⟨hmain, ?_⟩
  rw [hmain]
  simp

/-- C7 witness: the handler at a platform reporting `Idle` (is_idle
true) and at one reporting `Running` (is_idle false). -/
theorem c7_witness :
    isIdleHandler envIdleOk reqC = ⟨200, some true⟩ ∧
    isIdleHandler envRunning reqC = ⟨200, some false⟩ :=
  ⟨(c7_isidle_iff_below_running envIdleOk reqC (str "https://c1") (str "tok")
      .idle (by decide) (by decide)).1,
   (c7_isidle_iff_below_running envRunning reqC (str "https://c1") (str "tok")
      .running (by decide) (by decide)).1⟩

/-- C8: for a well-formed `PUT /users` body, the handler answers 200 and
afterwards a tenant id is in the disabled set iff it was already disabled
or listed in `disable`, and is not listed in `enable`; an id listed in
both ends up enabled. -/
theorem c8_set_user_idler_status (body : Option UserStatusBody)
    (us : UserStatusBody) (du : StringSet) (x : GoStr) (h : body = some us) :
    (setUserIdlerStatus body du).1 = 200 ∧
    ((setUserIdlerStatus body du).2.memb x = true ↔
      (du.memb x = true ∨ x ∈ us.disable) ∧ x ∉ us.enable) ∧
    (x ∈ us.disable → x ∈ us.enable → (setUserIdlerStatus body du).2.memb x = false) := by
  subst h
  refine ⟨rfl, ?_, ?_⟩
  · simp [setUserIdlerStatus, StringSet.add, StringSet.remove, StringSet.memb,
      List.elem_eq_mem, List.mem_filter]
    tauto
  · intro hd he
    simp [setUserIdlerStatus, StringSet.add, StringSet.remove, StringSet.memb,
      List.elem_eq_mem, List.mem_filter]
    exact ⟨fun _ => he, fun _ => he⟩

/-- C8 witness: starting from the disabled set `{T-ann}` with body
`{disable: [T-bob, T-eve], enable: [T-eve]}` — 200, `T-bob` ends up
disabled, and `T-eve` (listed in both) ends up enabled. -/
theorem c8_witness :
    (setUserIdlerStatus (some ⟨[str "T-bob", str "T-eve"], [str "T-eve"]⟩)
      ⟨[str "T-ann"]⟩).1 = 200 ∧
    ((setUserIdlerStatus (some ⟨[str "T-bob", str "T-eve"], [str "T-eve"]⟩)
      ⟨[str "T-ann"]⟩).2.memb (str "T-bob") = true ↔
      ((⟨[str "T-ann"]⟩ : StringSet).memb (str "T-bob") = true
          ∨ str "T-bob" ∈ [str "T-bob", str "T-eve"])
        ∧ str "T-bob" ∉ [str "T-eve"]) ∧
    (setUserIdlerStatus (some ⟨[str "T-bob", str "T-eve"], [str "T-eve"]⟩)
      ⟨[str "T-ann"]⟩).2.memb (str "T-eve") = false :=
  ⟨(c8_set_user_idler_status (some ⟨[str "T-bob", str "T-eve"], [str "T-eve"]⟩)
      ⟨[str "T-bob", str "T-eve"], [str "T-eve"]⟩ ⟨[str "T-ann"]⟩ (str "T-bob") rfl).1,
   (c8_set_user_idler_status (some ⟨[str "T-bob", str "T-eve"], [str "T-eve"]⟩)
      ⟨[str "T-bob", str "T-eve"], [str "T-eve"]⟩ ⟨[str "T-ann"]⟩ (str "T-bob") rfl).2.1,
   (c8_set_user_idler_status (some ⟨[str "T-bob", str "T-eve"], [str "T-eve"]⟩)
      ⟨[str "T-bob", str "T-eve"], [str "T-eve"]⟩ ⟨[str "T-ann"]⟩ (str "T-eve") rfl).2.2
      (by decide) (by decide)⟩

/-- C9 counterexample.  The claim says stripping the jenkins suffix from
*every* DC namespace and re-appending it recovers the original.  The DC
namespace `abcdefgh` (8 characters, not ending in `-jenkins`) is
"stripped" to the empty string, so re-appending yields `-jenkins`, not
`abcdefgh`. -/
theorem c9_counterexample_roundtrip_fails :
    (dcUserNamespace (str "abcdefgh")).isSome = true ∧
    (dcUserNamespace (str "abcdefgh")).getD [] ++ jenkinsNamespaceSuffix
      ≠ str "abcdefgh" := by
  decide

/-- C9 (amended): for every DC namespace that actually ends in the
jenkins suffix — i.e. is of the form `t ++ "-jenkins"` — the derivation
strips exactly the suffix, and re-appending it recovers the original.
(Other namespaces are truncated by eight characters regardless, or make
the slice panic when shorter; see C10.) -/
theorem c9_amended_roundtrip_with_suffix (t : GoStr) :
    dcUserNamespace (t ++ jenkinsNamespaceSuffix) = some t
    ∧ (dcUserNamespace (t ++ jenkinsNamespaceSuffix)).getD [] ++ jenkinsNamespaceSuffix
        = t ++ jenkinsNamespaceSuffix := by
  have hlen : jenkinsNamespaceSuffix.length = 8 := by decide
  have hmain : dcUserNamespace (t ++ jenkinsNamespaceSuffix) = some t := by
    rw [dcUserNamespace, goSliceUpTo, List.length_append, hlen]
    push_cast
    split_ifs with h
    · congr 1
      have h2 : ((t.length : Int) + 8 - 8).toNat = t.length := by omega
      rw [h2]
      exact List.take_left t jenkinsNamespaceSuffix
    · exfalso
      apply h
      constructor <;> omega
  exact ⟨hmain, by rw [hmain]; rfl⟩

/-- C10: `HandleDeploymentConfig`'s namespace derivation truncates the
DC namespace by the 8-character length of `-jenkins` without checking
the suffix is present: for namespaces shorter than 8 characters the
slice is out of range (modelled as `none`, the runtime panic), and for
all others the last 8 characters are dropped unconditionally. -/
theorem c10_truncation_unconditional (nsdc : GoStr) :
    (nsdc.length < 8 → dcUserNamespace nsdc = none) ∧
    (8 ≤ nsdc.length → dcUserNamespace nsdc = some (nsdc.take (nsdc.length - 8))) := by
  have hlen : jenkinsNamespaceSuffix.length = 8 := by decide
  constructor <;> intro h
  · rw [dcUserNamespace, goSliceUpTo, hlen]
    split_ifs with hif
    · exfalso
      push_cast at hif
      omega
    · rfl
  · rw [dcUserNamespace, goSliceUpTo, hlen]
    split_ifs with hif
    · have h2 : ((nsdc.length : Int) - ((8 : Nat) : Int)).toNat = nsdc.length - 8 := by
        omega
      rw [h2]
    · exfalso
      apply hif
      push_cast
      constructor <;> omega

/-- C10 witness: the 3-character namespace `abc` panics (none); the
11-character namespace `mynamespace`, which does not end in `-jenkins`,
is still truncated by 8, to `myn`. -/
theorem c10_witness :
    dcUserNamespace (str "abc") = none ∧
    dcUserNamespace (str "mynamespace") = some (str "myn") :=
  ⟨(c10_truncation_unconditional (str "abc")).1 (by decide),
   by
    have h := (c10_truncation_unconditional (str "mynamespace")).2 (by decide)
    rw [h]
    decide⟩

end JenkinsIdler
